import Mathlib

/-!
# Verification of the campsite availability change-detection core

Shallow embedding of `src/src/campsite_checker/campsite_handler.py` and
`src/src/telegram_bot/telegram_handler.py` from the
recreation-gov-campsite-checker repository.

Python strings are modelled as Lean `String` / `List Char`; Python dicts
holding the small availability-state records are modelled as structures with
`Option`-typed fields (a missing key is `none`), and Python truthiness of the
values that actually occur (None, dicts, strings, booleans) is modelled
explicitly.  The ambient clock (`datetime.now().isoformat()`) is passed as an
explicit `now : String` parameter.
-/

namespace Campsite

/-- ASCII whitespace, matching the characters Python's `str.strip` and the
regex class `\s` recognise in the ASCII range. -/
def pyIsSpace (c : Char) : Bool :=
  c = ' ' || c = '\t' || c = '\n' || c = '\r' || c = '\x0b' || c = '\x0c'

/-- ASCII lower-casing of one character, as Python's `str.lower` acts on
ASCII letters. -/
def asciiLower (c : Char) : Char :=
  if 'A' ≤ c && c ≤ 'Z' then Char.ofNat (c.toNat + 32) else c

/-- `s.lower()` on the ASCII range. -/
def lowerStr (s : String) : String :=
  String.mk (s.data.map asciiLower)

/-- Python `text.strip()`: drop leading and trailing whitespace. -/
def pyStrip (cs : List Char) : List Char :=
  ((cs.dropWhile pyIsSpace).reverse.dropWhile pyIsSpace).reverse

/-- Python `text.split(sep)` for a one-character separator: split at every
occurrence, keeping empty segments, always returning at least one segment. -/
def splitOnChar (sep : Char) : List Char → List (List Char)
  | [] => [[]]
  | c :: rest =>
    let r := splitOnChar sep rest
    if c = sep then
      [] :: r
    else
      match r with
      | [] => [[c]]
      | p :: ps => (c :: p) :: ps

/-- Python `needle in hay` for strings: substring containment. -/
def containsSub (needle : List Char) : List Char → Bool
  | [] => needle.isEmpty
  | c :: rest => needle.isPrefixOf (c :: rest) || containsSub needle rest

/-- Numeric value of a digit string (`int(...)` on a run of `\d`). -/
def digitsVal (run : List Char) : Nat :=
  run.foldl (fun a c => a * 10 + (c.toNat - 48)) 0

/-- Does `cs` start with the four letters `site`, case-insensitively?  This is
the literal `site` of the regex `(\d+)\s+site` under `re.IGNORECASE`. -/
def siteWord : List Char → Bool
  | s :: i :: t :: e :: _ =>
    asciiLower s = 's' && asciiLower i = 'i' && asciiLower t = 't' && asciiLower e = 'e'
  | _ => false

/-- Does `cs` start with one or more whitespace characters followed by `site`
(case-insensitive)?  This is `\s+site` of the regex. -/
def spacesThenSite : List Char → Bool
  | [] => false
  | c :: rest => pyIsSpace c && (siteWord rest || spacesThenSite rest)

/-- Scanner for `re.search(r'(\d+)\s+site', text, re.IGNORECASE)`: find the
leftmost maximal digit run that is immediately followed by `\s+site`, and
return its value (`int(match.group(1))`).  The flag records whether the
previous character was a digit, so a run is only tested at its head; a match
starting inside a digit run needs the same run end, hence succeeds exactly
when the test at the head does, so skipping is sound. -/
def findCountAux : Bool → List Char → Option Nat
  | _, [] => none
  | prevDigit, c :: rest =>
    if c.isDigit then
      if prevDigit then
        findCountAux true rest
      else
        let run := c :: rest.takeWhile Char.isDigit
        let after := rest.dropWhile Char.isDigit
        if spacesThenSite after then some (digitsVal run) else findCountAux true rest
    else
      findCountAux false rest

/-- `re.search(r'(\d+)\s+site', cs, re.IGNORECASE)` returning `group(1)` as a
number, or `none` when there is no match. -/
def findCount (cs : List Char) : Option Nat :=
  findCountAux false cs

/-- The sentinel glyph `SUCCESS_EMOJI = "🏕"` (U+1F3D5) marking a
successful-availability line. -/
def successEmoji : Char := '🏕'

/-- Contribution of one line of the report to the site count, following the
loop body of `extract_site_count_from_output`: lines lacking the marker or a
colon are ignored; otherwise the text between the first and second colons is
stripped and scanned with the regex, a failed scan contributing 0. -/
def lineContribution (line : List Char) : Nat :=
  if line.contains successEmoji && line.contains ':' then
    match splitOnChar ':' line with
    | _ :: availablePart :: _ =>
      match findCount (pyStrip availablePart) with
      | some n => n
      | none => 0
    | _ => 0
  else 0

/-- `extract_site_count_from_output(camping_output)`: 0 for empty input, else
the whole text is stripped, split into lines, and the per-line contributions
are summed. -/
def extract_site_count_from_output (camping_output : String) : Nat :=
  if camping_output = "" then 0
  else
    (splitOnChar '\n' (pyStrip camping_output.data)).foldl
      (fun total line => total + lineContribution line) 0

/-- The availability-state dict `{has_sites, site_count, last_checked}`.
Fields are `Option`s because Python `dict.get` distinguishes missing keys;
`⟨none, none, none⟩` is the empty dict `{}`. -/
structure StateDict where
  has_sites : Option Bool
  site_count : Option Nat
  last_checked : Option String
deriving Repr, DecidableEq

/-- Is the dict empty (`{}`)?  An empty dict is falsy in Python. -/
def StateDict.isEmptyDict (d : StateDict) : Bool :=
  d.has_sites.isNone && d.site_count.isNone && d.last_checked.isNone

/-- A Python value bound to `last_availability_state`: `None` or a state
dict. -/
inductive PyState where
  | pyNone
  | pyDict (d : StateDict)
deriving Repr, DecidableEq

/-- Python truthiness of a `last_state` value: `None` and `{}` are falsy. -/
def PyState.truthy : PyState → Bool
  | .pyNone => false
  | .pyDict d => !d.isEmptyDict

/-- `last_state.get('has_sites', False)` (only reached on truthy values, but
total here). -/
def PyState.getHasSites : PyState → Bool
  | .pyNone => false
  | .pyDict d => d.has_sites.getD false

/-- `last_state.get('site_count', 0)`. -/
def PyState.getSiteCount : PyState → Nat
  | .pyNone => 0
  | .pyDict d => d.site_count.getD 0

/-- Truthiness of an optional string (`None` and `""` are falsy). -/
def truthyOptStr : Option String → Bool
  | none => false
  | some s => s ≠ ""

/-- The ephemeral check-result dict produced by `process_search`.  Keys may be
absent, hence `Option` fields. -/
structure CheckResult where
  search_name : Option String
  camping_output : Option String
  has_availabilities : Option Bool
  error : Option String
  priority : Option String
deriving Repr, DecidableEq

/-- `should_notify_availability_change(result, last_state)` with the clock
reading `datetime.now().isoformat()` made an explicit argument `now`.
Returns `(should_notify, reason, new_state)`. -/
def should_notify_availability_change (result : CheckResult) (last_state : PyState)
    (now : String) : Bool × String × StateDict :=
  let current_has_sites := result.has_availabilities.getD false
  let current_count :=
    if current_has_sites then
      extract_site_count_from_output (result.camping_output.getD "")
    else 0
  let current_state : StateDict :=
    { has_sites := some current_has_sites
      site_count := some current_count
      last_checked := some now }
  if !last_state.truthy then
    if current_has_sites then
      (true, "first_availability_found", current_state)
    else
      (false, "no_availability", current_state)
  else
    let previous_has_sites := last_state.getHasSites
    let previous_count := last_state.getSiteCount
    if current_has_sites && !previous_has_sites then
      (true, "new_availability", current_state)
    else if !current_has_sites && previous_has_sites then
      (false, "availability_disappeared", current_state)
    else if current_has_sites && previous_has_sites then
      if (current_count ≥ previous_count * 2 && current_count > previous_count + 2)
          || current_count ≥ previous_count + 5 then
        (true, "significant_increase", current_state)
      else
        (false, "availability_unchanged", current_state)
    else
      (false, "no_availability", current_state)

/-- Iterated change detection: each call's `new_state` becomes the stored
`last_availability_state` consumed by the next call, as the orchestrator
persists it between passes.  Returns the list of produced states. -/
def runTrace (init : PyState) : List (CheckResult × String) → List StateDict
  | [] => []
  | (r, now) :: rest =>
    let st := (should_notify_availability_change r init now).2.2
    st :: runTrace (.pyDict st) rest

/-- The `notification_settings` sub-dict of a user configuration. -/
structure NotificationSettings where
  telegram_enabled : Option Bool
  pushover_enabled : Option Bool
deriving Repr, DecidableEq

/-- One stored search record, with the fields the notification path reads. -/
structure SearchRec where
  name : Option String
  last_availability_state : PyState
deriving Repr, DecidableEq

/-- A user configuration as consumed by `notify_user` (`_user_id` is the
routing metadata added by `get_all_user_configs`). -/
structure UserConfig where
  user_id : Option String
  notification_settings : Option NotificationSettings
  searches : List SearchRec
deriving Repr, DecidableEq

/-- `_get_search_last_state(result, user_config)`: the
`last_availability_state` of the first search whose `name` equals the
result's `search_name` (default `'Unknown'`), or `None` when no search
matches. -/
def get_search_last_state (result : CheckResult) (cfg : UserConfig) : PyState :=
  let search_name := result.search_name.getD "Unknown"
  match cfg.searches.find? (fun s => s.name = some search_name) with
  | some s => s.last_availability_state
  | none => .pyNone

/-- The availability-state write performed by one `notify_user` call, as an
`Option`: `some st` means exactly one write of `st` for the checked search
(via `update_search_availability_state`), `none` means no write.  Mirrors the
branch structure of `notify_user` and `_update_search_state_if_needed`; the
clock is the explicit `now`. -/
def notify_user_state_write (result : CheckResult) (cfg : UserConfig)
    (bucket_name : Option String) (now : String) : Option StateDict :=
  if truthyOptStr result.error then
    -- error branch: `_send_error_notification`, which never touches state
    none
  else if !(result.has_availabilities.getD false) then
    -- `_update_search_state_if_needed`, guarded by `if bucket_name:`
    if truthyOptStr bucket_name then
      let last_state := get_search_last_state result cfg
      let new_state : StateDict :=
        { has_sites := some false, site_count := some 0, last_checked := some now }
      if !last_state.truthy || last_state.getHasSites then
        if truthyOptStr cfg.user_id then some new_state else none
      else none
    else none
  else
    let last_state := get_search_last_state result cfg
    let d := should_notify_availability_change result last_state now
    if truthyOptStr bucket_name then
      if truthyOptStr cfg.user_id then some d.2.2 else none
    else none

/-- Does `_send_error_notification` attempt an outbound send?  It tries
Telegram when `telegram_enabled` (default `True`), a `_user_id` is present and
a bot token is configured, and Pushover when `pushover_enabled` (default
`False`). -/
def error_send_attempted (cfg : UserConfig) (bot_token : Option String) : Bool :=
  let settings := cfg.notification_settings.getD ⟨none, none⟩
  (settings.telegram_enabled.getD true && truthyOptStr cfg.user_id
      && truthyOptStr bot_token)
    || settings.pushover_enabled.getD false

/-- Does one `notify_user` call attempt a user-visible notification for an
error-carrying result?  `notify_user` returns through
`_send_error_notification` unconditionally whenever `result.get('error')` is
truthy — no classification of the error text happens anywhere in `src/`. -/
def notify_user_error_send (result : CheckResult) (cfg : UserConfig)
    (bot_token : Option String) : Bool :=
  truthyOptStr result.error && error_send_attempted cfg bot_token

/-- The transient-trouble substrings of the Error-Classification Filter. -/
def transient_substrings : List String :=
  ["429", "rate limit", "too many requests", "timeout", "timed out",
   "connection", "network", "temporarily unavailable", "service unavailable",
   "502", "503", "504"]

/-- Modelled from the spec: the Error-Classification Filter
`should_notify_error(error_text)` of §4.3 has no implementation anywhere
under `src/` (no source function lower-cases error text or tests the
transient keyword list); per the spec it lower-cases the error text, returns
`false` (suppress) when any transient substring occurs, and `true`
otherwise. -/
def should_notify_error (error_text : String) : Bool :=
  let lowered := (lowerStr error_text).data
  !(transient_substrings.any (fun sub => containsSub sub.data lowered))


end Campsite

namespace TelegramBot

open Campsite (StateDict pyIsSpace asciiLower lowerStr)

/-- Python `s.isdigit()` restricted to ASCII digits: nonempty and all
digits. -/
def pyIsDigitStr (s : String) : Bool :=
  !s.data.isEmpty && s.data.all Char.isDigit

/-- The literal part of the URL pattern
`recreation\.gov/camping/campgrounds/(\d+)`. -/
def urlLiteral : List Char := "recreation.gov/camping/campgrounds/".data

/-- `re.search` for the URL pattern: leftmost occurrence of the literal
followed by at least one digit; the digit run is `group(1)`. -/
def urlScan : List Char → Option String
  | [] => none
  | c :: rest =>
    if urlLiteral.isPrefixOf (c :: rest) then
      let after := (c :: rest).drop urlLiteral.length
      let run := after.takeWhile Char.isDigit
      if !run.isEmpty then some (String.mk run) else urlScan rest
    else urlScan rest

/-- `parse_park_input(park_input)`: a pure digit string is accepted as-is, a
recreation.gov campground URL yields the embedded ID, anything else is
rejected (`None`). -/
def parse_park_input (park_input : String) : Option String :=
  if pyIsDigitStr park_input then some park_input
  else urlScan park_input.data

/-- The search dict built by `handle_add_command`.  Dates are modelled as day
ordinals (`datetime.strptime` results compared and subtracted at midnight),
so `(end_dt - start_dt).days` is plain subtraction. -/
structure NewSearch where
  name : String
  enabled : Bool
  parks : List String
  start_date : Int
  end_date : Int
  campsite_type : Option String
  campsite_ids : List String
  nights : Int
  weekends_only : Bool
  priority : String
  created_at : String
  last_availability_state : Option StateDict
deriving Repr, DecidableEq

/-- The stored per-user configuration as the add command reads and writes
it. -/
structure TgUserConfig where
  searches : List NewSearch
deriving Repr, DecidableEq

/-- Failure modes of the add command; each is reported to the user as an
error message instead of a success response. -/
inductive AddError where
  | endNotAfterStart
  | startBeforeToday
  | invalidPark
  | configLoadFailed
  | duplicateName
deriving Repr, DecidableEq

/-- Which failures are `ValidationError`s in the spec's taxonomy (bad date
range, date in the past, duplicate name). -/
def AddError.isValidation : AddError → Bool
  | .endNotAfterStart => true
  | .startBeforeToday => true
  | .duplicateName => true
  | .invalidPark => false
  | .configLoadFailed => false

/-- Validation core of `handle_add_command`, after the message text has been
parsed into a cleaned search name, two well-formed dates and a park input:
date-range check, date-in-the-past check, park parsing, config load,
case-insensitive duplicate check, then append-and-save.  `startD`, `endD`
and `today` are day ordinals (`today` is `datetime.now()` truncated to
midnight); `nowIso` is the `created_at` timestamp.  On success the returned
configuration is exactly the document handed to `save_user_config` before
the success message is sent. -/
def handle_add_core (search_name : String) (startD endD today : Int)
    (park_input : String) (cfg? : Option TgUserConfig) (nowIso : String) :
    Except AddError TgUserConfig :=
  if startD ≥ endD then .error .endNotAfterStart
  else if startD < today then .error .startBeforeToday
  else
    match parse_park_input park_input with
    | none => .error .invalidPark
    | some park_id =>
      match cfg? with
      | none => .error .configLoadFailed
      | some cfg =>
        let new_search : NewSearch :=
          { name := search_name
            enabled := true
            parks := [park_id]
            start_date := startD
            end_date := endD
            campsite_type := none
            campsite_ids := []
            nights := endD - startD
            weekends_only := false
            priority := "normal"
            created_at := nowIso
            last_availability_state := none }
        if (cfg.searches.map (fun s => lowerStr s.name)).contains
            (lowerStr search_name) then
          .error .duplicateName
        else
          .ok { searches := cfg.searches ++ [new_search] }

end TelegramBot

namespace Campsite

/-- The significant-increase threshold of the Change-Detection Engine:
availability at least doubled with a margin above +2, or a flat jump of at
least +5. -/
def significantIncrease (current previous : Nat) : Prop :=
  (current ≥ previous * 2 ∧ current > previous + 2) ∨ current ≥ previous + 5

instance (current previous : Nat) : Decidable (significantIncrease current previous) := by
  unfold significantIncrease; infer_instance

/-- The text between the first and second colons of a line (`parts[1]`), or
`[]` when the line has no colon. -/
def secondSegment (line : List Char) : List Char :=
  match splitOnChar ':' line with
  | _ :: p :: _ => p
  | _ => []

/-- Every line contributes either its regex-parsed count or 0; in particular
a line whose post-colon segment has no parseable `(\d+)\s+site` match
contributes 0 rather than failing. -/
theorem lineContribution_of_no_match (line : List Char)
    (h : findCount (pyStrip (secondSegment line)) = none) :
    lineContribution line = 0 := by
  unfold lineContribution
  unfold secondSegment at h
  cases hsp : splitOnChar ':' line with
  | nil => simp [hsp]
  | cons a tl =>
    cases tl with
    | nil => simp [hsp]
    | cons p rest =>
      rw [hsp] at h
      simp [hsp, h]

/-- C9: the Snapshot Extractor is total — for every string it returns a
non-negative integer built as a sum of per-line contributions, and a
marker/colon line whose segment after the first colon has no parseable
`(\d+)\s+site` match contributes 0 instead of raising; a concrete
malformed marker line yields 0. -/
theorem extractor_total_and_safe :
    (∀ s : String, (0 : Int) ≤ (extract_site_count_from_output s : Int)) ∧
    (∀ line : List Char, findCount (pyStrip (secondSegment line)) = none →
        lineContribution line = 0) ∧
    extract_site_count_from_output "🏕 Broken Park: no number given sites" = 0 := by
  refine ⟨fun s => Int.ofNat_nonneg _, fun line h => lineContribution_of_no_match line h, ?_⟩
  decide

/-- Witness for C9 at a concrete malformed marker/colon line. -/
theorem extractor_total_and_safe_witness :
    lineContribution ("🏕 X: nothing here".data) = 0 :=
  extractor_total_and_safe.2.1 ("🏕 X: nothing here".data) (by decide)

/-- C4 counterexample: the claim says the extractor sums the first integer
token after the colon, so it would return 7 on this line; the code's regex
requires the integer to be followed by whitespace and `site`, so it returns
0. -/
theorem extractor_first_integer_counterexample :
    extract_site_count_from_output "🏕 Park A: 7 spots free" = 0 ∧
    extract_site_count_from_output "🏕 Park A: 7 spots free" ≠ 7 := by
  decide

/-- C4 amended: the extractor returns the sum over lines (of the stripped
input) of the per-line count, where a marker+colon line counts the leftmost
maximal digit run followed by whitespace and `site` (case-insensitive) in the
segment between the first and second colons, 0 when there is no such match;
empty and marker-free inputs yield 0, and the spec's two-line example yields
5.  The concrete cases pin the amended reading: `7 spots` does not count,
`in 2024, 3 sites` counts 3 (not 2024), and text after a second colon is not
scanned. -/
theorem extractor_sums_regex_counts :
    extract_site_count_from_output "" = 0 ∧
    extract_site_count_from_output "No sites available for Park X: 4 found" = 0 ∧
    extract_site_count_from_output
      "🏕 Park A: 3 sites available\n🏕 Park B: 2 site(s) available" = 5 ∧
    extract_site_count_from_output "🏕 P: in 2024, 3 sites open" = 3 ∧
    extract_site_count_from_output "🏕 A: no: 5 sites" = 0 ∧
    (∀ s : String, extract_site_count_from_output s =
        if s = "" then 0
        else (splitOnChar '\n' (pyStrip s.data)).foldl
          (fun total line => total + lineContribution line) 0) := by
  refine ⟨by decide, by decide, by decide, by decide, by decide, fun s => rfl⟩

/-- C10: `should_notify_availability_change` tests the previous state for
falsiness, not for `None`, so the empty dict `{}` is treated as "no previous
state": with sites in the current result it reports
`first_availability_found`, never `new_availability`. -/
theorem empty_dict_treated_as_no_state (r : CheckResult) (now : String)
    (h : r.has_availabilities.getD false = true) :
    (should_notify_availability_change r (.pyDict ⟨none, none, none⟩) now).1 = true ∧
    (should_notify_availability_change r (.pyDict ⟨none, none, none⟩) now).2.1 =
      "first_availability_found" ∧
    (should_notify_availability_change r (.pyDict ⟨none, none, none⟩) now).2.1 ≠
      "new_availability" := by
  unfold should_notify_availability_change
  simp [h, PyState.truthy, StateDict.isEmptyDict]

/-- Witness for C10 at a concrete check result with availability. -/
theorem empty_dict_treated_as_no_state_witness :
    (should_notify_availability_change
      ⟨some "s", some "🏕 A: 3 sites", some true, none, none⟩
      (.pyDict ⟨none, none, none⟩) "t1").2.1 = "first_availability_found" :=
  (empty_dict_treated_as_no_state
    ⟨some "s", some "🏕 A: 3 sites", some true, none, none⟩ "t1" (by decide)).2.1

/-- Every branch of `should_notify_availability_change` returns the same
third component: the freshly built current state. -/
theorem snac_next_state (r : CheckResult) (prev : PyState) (now : String) :
    (should_notify_availability_change r prev now).2.2 =
      { has_sites := some (r.has_availabilities.getD false)
        site_count := some (if r.has_availabilities.getD false then
            extract_site_count_from_output (r.camping_output.getD "") else 0)
        last_checked := some now } := by
  cases hc : r.has_availabilities.getD false <;>
    simp only [should_notify_availability_change, hc, if_true, if_false] <;>
      (repeat' split) <;> simp

/-- The notify decision and the reason do not depend on the clock reading. -/
theorem snac_decision_reason_clock_free (r : CheckResult) (prev : PyState)
    (now now' : String) :
    (should_notify_availability_change r prev now).1 =
      (should_notify_availability_change r prev now').1 ∧
    (should_notify_availability_change r prev now).2.1 =
      (should_notify_availability_change r prev now').2.1 := by
  cases hc : r.has_availabilities.getD false <;>
    cases ht : prev.truthy <;>
      cases hp : prev.getHasSites <;>
        simp [should_notify_availability_change, hc, ht, hp] <;>
          (try split) <;> simp

/-- C7: for every error-carrying check result (truthy `error` field),
`notify_user` returns through `_send_error_notification` and performs no
availability-state write for the search. -/
theorem error_path_leaves_state_untouched (r : CheckResult) (cfg : UserConfig)
    (bucket : Option String) (now : String)
    (herr : truthyOptStr r.error = true) :
    notify_user_state_write r cfg bucket now = none := by
  unfold notify_user_state_write
  simp [herr]

/-- Witness for C7 at a concrete error-carrying result. -/
theorem error_path_leaves_state_untouched_witness :
    notify_user_state_write
      ⟨some "S", none, some false, some "Invalid park ID 99999", none⟩
      ⟨some "u1", none, []⟩ (some "bucket") "t1" = none :=
  error_path_leaves_state_untouched
    ⟨some "S", none, some false, some "Invalid park ID 99999", none⟩
    ⟨some "u1", none, []⟩ (some "bucket") "t1" (by decide)

end Campsite

namespace Campsite

/-- C1: the Change-Detection Engine implements exactly the §4.2 transition
table: no previous (falsy) state reports `first_availability_found` when the
current result has sites and `no_availability` otherwise; none→some reports
`new_availability` (notify), some→none reports `availability_disappeared`
(suppress), some→some reports `significant_increase` (notify) exactly when
(count ≥ 2×prev ∧ count > prev+2) ∨ count ≥ prev+5 and
`availability_unchanged` (suppress) otherwise, and none→none reports
`no_availability` (suppress). -/
theorem availability_transition_table (r : CheckResult) (st : StateDict) (now : String) :
    (r.has_availabilities.getD false = true →
      (should_notify_availability_change r .pyNone now).1 = true ∧
      (should_notify_availability_change r .pyNone now).2.1 = "first_availability_found") ∧
    (r.has_availabilities.getD false = false →
      (should_notify_availability_change r .pyNone now).1 = false ∧
      (should_notify_availability_change r .pyNone now).2.1 = "no_availability") ∧
    ((PyState.pyDict st).truthy = true → st.has_sites.getD false = false →
      r.has_availabilities.getD false = true →
      (should_notify_availability_change r (.pyDict st) now).1 = true ∧
      (should_notify_availability_change r (.pyDict st) now).2.1 = "new_availability") ∧
    ((PyState.pyDict st).truthy = true → st.has_sites.getD false = true →
      r.has_availabilities.getD false = false →
      (should_notify_availability_change r (.pyDict st) now).1 = false ∧
      (should_notify_availability_change r (.pyDict st) now).2.1 = "availability_disappeared") ∧
    ((PyState.pyDict st).truthy = true → st.has_sites.getD false = true →
      r.has_availabilities.getD false = true →
      (((should_notify_availability_change r (.pyDict st) now).1 = true ∧
        (should_notify_availability_change r (.pyDict st) now).2.1 = "significant_increase") ↔
        significantIncrease (extract_site_count_from_output (r.camping_output.getD ""))
          (st.site_count.getD 0)) ∧
      (¬ significantIncrease (extract_site_count_from_output (r.camping_output.getD ""))
          (st.site_count.getD 0) →
        (should_notify_availability_change r (.pyDict st) now).1 = false ∧
        (should_notify_availability_change r (.pyDict st) now).2.1 = "availability_unchanged")) ∧
    ((PyState.pyDict st).truthy = true → st.has_sites.getD false = false →
      r.has_availabilities.getD false = false →
      (should_notify_availability_change r (.pyDict st) now).1 = false ∧
      (should_notify_availability_change r (.pyDict st) now).2.1 = "no_availability") := by
  refine ⟨fun hc => ?_, fun hc => ?_, fun ht hp hc => ?_, fun ht hp hc => ?_,
    fun ht hp hc => ?_, fun ht hp hc => ?_⟩
  · simp [should_notify_availability_change, hc, PyState.truthy]
  · simp [should_notify_availability_change, hc, PyState.truthy]
  · simp [should_notify_availability_change, hc, ht, PyState.getHasSites, hp]
  · simp [should_notify_availability_change, hc, ht, PyState.getHasSites, hp]
  · have hrw : (decide (extract_site_count_from_output (r.camping_output.getD "") ≥
        st.site_count.getD 0 * 2) &&
        decide (extract_site_count_from_output (r.camping_output.getD "") >
          st.site_count.getD 0 + 2) ||
        decide (extract_site_count_from_output (r.camping_output.getD "") ≥
          st.site_count.getD 0 + 5)) =
        decide (significantIncrease
          (extract_site_count_from_output (r.camping_output.getD ""))
          (st.site_count.getD 0)) := by
      by_cases h1 : extract_site_count_from_output (r.camping_output.getD "") ≥
          st.site_count.getD 0 * 2 <;>
        by_cases h2 : extract_site_count_from_output (r.camping_output.getD "") >
            st.site_count.getD 0 + 2 <;>
          by_cases h3 : extract_site_count_from_output (r.camping_output.getD "") ≥
              st.site_count.getD 0 + 5 <;>
            simp [significantIncrease, h1, h2, h3]
    simp only [should_notify_availability_change, hc, ht, PyState.getHasSites,
      PyState.getSiteCount, hp, Bool.not_true, Bool.and_false, Bool.false_and,
      Bool.and_true, Bool.true_and, Bool.not_false, if_false, if_true,
      Bool.false_eq_true, reduceIte, hrw]
    by_cases hsig : significantIncrease
      (extract_site_count_from_output (r.camping_output.getD ""))
      (st.site_count.getD 0) <;>
      simp [hsig]
  · simp [should_notify_availability_change, hc, ht, PyState.getHasSites, hp]

/-- Witness for C1: the spec's own example — previous
`{has_sites: true, site_count: 2}`, current result with 3 sites — is
suppressed as `availability_unchanged`. -/
theorem availability_transition_table_witness :
    (should_notify_availability_change
      ⟨some "s", some "🏕 A: 3 sites", some true, none, none⟩
      (.pyDict ⟨some true, some 2, some "t0"⟩) "t1").1 = false ∧
    (should_notify_availability_change
      ⟨some "s", some "🏕 A: 3 sites", some true, none, none⟩
      (.pyDict ⟨some true, some 2, some "t0"⟩) "t1").2.1 = "availability_unchanged" :=
  ((availability_transition_table
      ⟨some "s", some "🏕 A: 3 sites", some true, none, none⟩
      ⟨some true, some 2, some "t0"⟩ "t1").2.2.2.2.1
    (by decide) (by decide) (by decide)).2 (by decide)

/-- C5: every state produced by the Change-Detection Engine — in particular
along any sequence of decide calls from any initial previous state, each
produced state feeding the next call — has `site_count` 0 whenever
`has_sites` is false. -/
theorem produced_states_satisfy_invariant (init : PyState)
    (steps : List (CheckResult × String)) :
    ∀ st ∈ runTrace init steps, st.has_sites = some false → st.site_count = some 0 := by
  induction steps generalizing init with
  | nil => intro st hst; simp [runTrace] at hst
  | cons p rest ih =>
    obtain ⟨r, now⟩ := p
    intro st hst hfalse
    simp only [runTrace, List.mem_cons] at hst
    rcases hst with hst | hst
    · subst hst
      rw [snac_next_state] at hfalse ⊢
      simp only [StateDict.has_sites] at hfalse
      have : r.has_availabilities.getD false = false := by
        simpa using hfalse
      simp [this]
    · exact ih _ st hst hfalse

/-- Witness for C5: the single produced state of a one-step trace with no
availability satisfies the invariant. -/
theorem produced_states_satisfy_invariant_witness :
    (⟨some false, some 0, some "t1"⟩ : StateDict).site_count = some 0 :=
  produced_states_satisfy_invariant .pyNone
    [(⟨some "s", none, some false, none, none⟩, "t1")]
    ⟨some false, some 0, some "t1"⟩ (by decide) (by decide)

/-- C6 counterexample: `should_notify_availability_change` reads the clock
(`datetime.now().isoformat()`, the `now` argument of the embedding), which is
not among the claim's "identical arguments"; two calls with the same check
result and previous state but different clock readings return different
complete values (the `last_checked` of the next state differs). -/
theorem decide_not_clock_independent :
    should_notify_availability_change
      ⟨some "s", some "🏕 A: 3 sites", some true, none, none⟩ .pyNone
      "2025-06-01T00:00:00" ≠
    should_notify_availability_change
      ⟨some "s", some "🏕 A: 3 sites", some true, none, none⟩ .pyNone
      "2025-06-01T00:00:01" := by
  decide

/-- C6 amended: with the same check result and previous state, two calls of
`should_notify_availability_change` agree on the notify decision, the reason,
and the `has_sites` and `site_count` fields of the next state (only
`last_checked` follows the clock); and the extractor is a pure function of
the report text. -/
theorem decide_deterministic_up_to_clock (r : CheckResult) (prev : PyState)
    (now now' : String) :
    (should_notify_availability_change r prev now).1 =
      (should_notify_availability_change r prev now').1 ∧
    (should_notify_availability_change r prev now).2.1 =
      (should_notify_availability_change r prev now').2.1 ∧
    (should_notify_availability_change r prev now).2.2.has_sites =
      (should_notify_availability_change r prev now').2.2.has_sites ∧
    (should_notify_availability_change r prev now).2.2.site_count =
      (should_notify_availability_change r prev now').2.2.site_count ∧
    (∀ t : String, extract_site_count_from_output t = extract_site_count_from_output t) := by
  refine ⟨(snac_decision_reason_clock_free r prev now now').1,
    (snac_decision_reason_clock_free r prev now now').2, ?_, ?_, fun t => rfl⟩
  · rw [snac_next_state, snac_next_state]
  · rw [snac_next_state, snac_next_state]

/-- C3 counterexample: the Error-Classification Filter classifies
`"HTTP 429: Too Many Requests"` as transient (suppress), yet `notify_user` in
`src/` routes every error-carrying result straight to
`_send_error_notification`, which attempts a user-visible send whenever a
channel is open — the transient error does produce a notification. -/
theorem transient_error_still_notified :
    should_notify_error "HTTP 429: Too Many Requests" = false ∧
    notify_user_error_send
      ⟨some "S", none, some false, some "HTTP 429: Too Many Requests", none⟩
      ⟨some "12345", none, []⟩ (some "TOKEN") = true := by
  decide

/-- C3 amended: `should_notify_error` (modelled from the spec, since no
implementation exists under `src/`) returns false exactly when the
lower-cased text contains a transient substring — matching the spec's three
examples — but `notify_user` in `src/` attempts an error notification for
every error-carrying result based solely on channel configuration, ignoring
the error text. -/
theorem error_classification_spec (s : String) (r : CheckResult)
    (cfg : UserConfig) (tok : Option String) :
    (should_notify_error s = false ↔
      transient_substrings.any
        (fun sub => containsSub sub.data (lowerStr s).data) = true) ∧
    should_notify_error "HTTP 429: Too Many Requests" = false ∧
    should_notify_error "Invalid park ID 99999" = true ∧
    should_notify_error "Gateway Timeout (504)" = false ∧
    (truthyOptStr r.error = true →
      notify_user_error_send r cfg tok = error_send_attempted cfg tok) := by
  refine ⟨?_, by decide, by decide, by decide, fun herr => ?_⟩
  · unfold should_notify_error
    simp
  · unfold notify_user_error_send
    simp [herr]

/-- Witness for C3's amended theorem at a concrete transient error text and
open Telegram channel. -/
theorem error_classification_spec_witness :
    notify_user_error_send
      ⟨some "S", none, some false, some "Gateway Timeout (504)", none⟩
      ⟨some "u1", none, []⟩ (some "TOKEN") =
    error_send_attempted ⟨some "u1", none, []⟩ (some "TOKEN") :=
  (error_classification_spec "x"
    ⟨some "S", none, some false, some "Gateway Timeout (504)", none⟩
    ⟨some "u1", none, []⟩ (some "TOKEN")).2.2.2.2 (by decide)

/-- C2 counterexample: a non-error check with no current availability, for a
search whose stored state already says `has_sites: false`, performs zero
state writes — `_update_search_state_if_needed` skips the write — refuting
"exactly one state write per checked search per pass, including the case
where neither the previous state nor the current snapshot has sites". -/
theorem state_write_skipped_when_still_empty :
    notify_user_state_write
      ⟨some "S", none, some false, none, none⟩
      ⟨some "u1", none, [⟨some "S", .pyDict ⟨some false, some 0, some "t0"⟩⟩]⟩
      (some "bucket") "t1" = none := by
  decide

/-- C2 amended: on a non-error check with the store reachable (truthy bucket
name and user id), `notify_user` persists the full next state
`{has_sites, site_count, last_checked: now}` regardless of the notify
decision — except that when the current snapshot has no sites and the stored
previous state is truthy with `has_sites` false, the write is skipped (the
baseline is already correct), so that case performs zero writes, not one. -/
theorem state_write_policy (r : CheckResult) (cfg : UserConfig)
    (bucket : Option String) (now : String)
    (hnoerr : truthyOptStr r.error = false)
    (hb : truthyOptStr bucket = true)
    (hu : truthyOptStr cfg.user_id = true) :
    (r.has_availabilities.getD false = true →
      notify_user_state_write r cfg bucket now =
        some (should_notify_availability_change r (get_search_last_state r cfg) now).2.2) ∧
    (r.has_availabilities.getD false = false →
      (((get_search_last_state r cfg).truthy = false ∨
          (get_search_last_state r cfg).getHasSites = true) →
        notify_user_state_write r cfg bucket now =
          some ⟨some false, some 0, some now⟩ ∧
        (⟨some false, some 0, some now⟩ : StateDict) =
          (should_notify_availability_change r (get_search_last_state r cfg) now).2.2) ∧
      ((get_search_last_state r cfg).truthy = true →
        (get_search_last_state r cfg).getHasSites = false →
        notify_user_state_write r cfg bucket now = none)) := by
  refine ⟨fun hc => ?_, fun hc => ⟨fun hlast => ⟨?_, ?_⟩, fun htr hhs => ?_⟩⟩
  · unfold notify_user_state_write
    simp [hnoerr, hb, hu, hc]
  · unfold notify_user_state_write
    rcases hlast with hlast | hlast <;>
      simp [hnoerr, hb, hu, hc, hlast]
  · rw [snac_next_state]
    simp [hc]
  · unfold notify_user_state_write
    simp [hnoerr, hb, hu, hc, htr, hhs]

/-- Witness for C2's amended theorem: a first-ever check with availability
writes the engine's next state. -/
theorem state_write_policy_witness :
    notify_user_state_write
      ⟨some "S", some "🏕 A: 3 sites", some true, none, none⟩
      ⟨some "u1", none, []⟩ (some "bucket") "t1" =
      some ⟨some true, some 3, some "t1"⟩ :=
  ((state_write_policy
      ⟨some "S", some "🏕 A: 3 sites", some true, none, none⟩
      ⟨some "u1", none, []⟩ (some "bucket") "t1"
      (by decide) (by decide) (by decide)).1 (by decide)).trans (by decide)

end Campsite

namespace TelegramBot

open Campsite (lowerStr)

/-- C8: for a parseable park input and a loadable configuration, the add
command fails with a validation error when `start_date ≥ end_date`
(equality included), when `start_date` is before today, or when a search
with the same name (case-insensitively) already exists; otherwise it appends
a new search with `enabled = true`, `last_availability_state = null` and
`nights = end_date − start_date` in days, and the success response reports
exactly the configuration that was persisted. -/
theorem add_command_validates_and_appends (name : String) (startD endD today : Int)
    (park pid : String) (cfg : TgUserConfig) (now : String)
    (hpark : parse_park_input park = some pid) :
    (startD ≥ endD →
      handle_add_core name startD endD today park (some cfg) now =
        .error .endNotAfterStart ∧
      AddError.endNotAfterStart.isValidation = true) ∧
    (startD < endD → startD < today →
      handle_add_core name startD endD today park (some cfg) now =
        .error .startBeforeToday ∧
      AddError.startBeforeToday.isValidation = true) ∧
    (startD < endD → today ≤ startD →
      (cfg.searches.map (fun s => lowerStr s.name)).contains (lowerStr name) = true →
      handle_add_core name startD endD today park (some cfg) now =
        .error .duplicateName ∧
      AddError.duplicateName.isValidation = true) ∧
    (startD < endD → today ≤ startD →
      (cfg.searches.map (fun s => lowerStr s.name)).contains (lowerStr name) = false →
      ∃ ns : NewSearch,
        handle_add_core name startD endD today park (some cfg) now =
          .ok ⟨cfg.searches ++ [ns]⟩ ∧
        ns.name = name ∧ ns.enabled = true ∧ ns.last_availability_state = none ∧
        ns.nights = endD - startD ∧ ns.parks = [pid]) := by
  refine ⟨fun hge => ⟨?_, rfl⟩, fun hlt hpast => ⟨?_, rfl⟩,
    fun hlt hfut hdup => ⟨?_, rfl⟩, fun hlt hfut hdup => ?_⟩
  · unfold handle_add_core
    rw [if_pos hge]
  · unfold handle_add_core
    rw [if_neg (by omega), if_pos hpast]
  · unfold handle_add_core
    rw [if_neg (by omega), if_neg (by omega), hpark]
    simp only [hdup, if_true]
  · refine ⟨⟨name, true, [pid], startD, endD, none, [], endD - startD, false,
      "normal", now, none⟩, ?_, rfl, rfl, rfl, rfl, rfl⟩
    unfold handle_add_core
    rw [if_neg (by omega), if_neg (by omega), hpark]
    simp only [hdup, Bool.false_eq_true, if_false]

/-- Witness for C8: adding with `start_date = end_date` fails with the
date-range validation error. -/
theorem add_command_validates_and_appends_witness :
    handle_add_core "Trip" 10 10 5 "232448" (some ⟨[]⟩) "now" =
      .error .endNotAfterStart :=
  ((add_command_validates_and_appends "Trip" 10 10 5 "232448" "232448" ⟨[]⟩ "now"
    (by decide)).1 (by omega)).1

end TelegramBot
